import Mathlib

/-!
Verification of the podcast script generator webapp.

The repository consists of a browser front end (static/js/app.js) driving a
multi-stage text-to-script generation pipeline (analyze, draft, elaborate,
polish) that lives behind the /api/generate endpoint.  The front end is
embedded directly from the JavaScript source; the pipeline orchestrator is
not present in the source tree, so it is modelled from the specification
(section 4.5 and section 8) where a claim needs it.

The front end is modelled as pure functions from the form input, the
network outcome of the fetch, and the relevant DOM state, to the updated
DOM state together with a trace of observable UI events (error banner,
results panel, outgoing fetches, clipboard writes, file downloads).
-/

namespace Podcast

/-- Metadata of a generation result as the front end consumes it
(showResults and downloadScript read word_count, duration_seconds,
num_chapters and timestamp). -/
structure UIMetadata where
  word_count : Nat
  duration_seconds : Nat
  num_chapters : Nat
  timestamp : String
deriving DecidableEq, Repr

/-- The JSON body the front end receives from POST /api/generate:
a success flag, an optional error message (empty string when absent),
the script text and its metadata. -/
structure ApiResult where
  success : Bool
  error : String
  script : String
  metadata : UIMetadata
deriving DecidableEq, Repr

/-- Outcome of the fetch plus response.json() pair in handleGenerateScript:
either the transport or JSON parse threw (netError carries the thrown
message, empty when the Error had no message), or a response arrived with
an HTTP ok flag and a parsed body. -/
inductive NetOutcome where
  | netError (msg : String)
  | response (ok : Bool) (result : ApiResult)
deriving DecidableEq, Repr

/-- The slice of DOM state that app.js reads and writes: the error banner,
the results section, the progress section, the two generate buttons with
the script button label and spinner, and the module-level
currentScriptData variable. -/
structure UIState where
  errorVisible : Bool
  errorMessage : String
  resultsVisible : Bool
  progressVisible : Bool
  scriptBtnDisabled : Bool
  audioBtnDisabled : Bool
  scriptBtnText : String
  spinnerVisible : Bool
  currentScriptData : Option ApiResult
deriving DecidableEq, Repr

/-- The form fields read at the top of handleGenerateScript, before
trimming. -/
structure FormInput where
  source : String
  podcast_name : String
  host_name : String
  max_chapters : Nat
  skip_elaborate : Bool
  skip_polish : Bool
deriving DecidableEq, Repr

/-- Observable UI effects of the front end functions: error banner shown
with a message, results rendered from an ApiResult, an outgoing POST to
/api/generate with a given body, a clipboard write, a file download. -/
inductive UIEvent where
  | showError (msg : String)
  | showResults (result : ApiResult)
  | fetchGenerate (body : FormInput)
  | clipboardWrite (text : String)
  | downloadFile (filename : String) (content : String)
deriving DecidableEq, Repr

/-- The trim applied to the form fields (JavaScript String.prototype.trim,
and the analogous strip in the pipeline validation): removes whitespace
from both ends, written structurally over the character list so that it
is kernel-computable. -/
def trimWS (s : String) : String :=
  String.mk
    (((s.toList.dropWhile Char.isWhitespace).reverse.dropWhile
        Char.isWhitespace).reverse)

/-- showError in app.js: writes the message into the banner and makes it
visible. -/
def applyShowError (s : UIState) (msg : String) : UIState :=
  { s with errorVisible := true, errorMessage := msg }

/-- showResults in app.js: stores the result in currentScriptData, hides
the progress section and shows the results section. -/
def applyShowResults (s : UIState) (r : ApiResult) : UIState :=
  { s with currentScriptData := some r,
           progressVisible := false,
           resultsVisible := true }

/-- The finally block of handleGenerateScript: re-enables both buttons,
restores the script button label and hides its spinner. -/
def finallyRestore (s : UIState) : UIState :=
  { s with scriptBtnDisabled := false,
           audioBtnDisabled := false,
           scriptBtnText := "Generate Script",
           spinnerVisible := false }

/-- handleGenerateScript from app.js, as a pure function of the form
input, the network outcome and the starting DOM state.  It trims the form
fields, rejects an empty source with a validation error before any fetch,
otherwise hides previous results, shows progress, disables both buttons,
issues the fetch, and either renders the results (response ok with
success true) or shows the error thrown from the non-ok branch or from
the transport; the finally block restores the buttons on every non-early
path. -/
def handleGenerateScript (input : FormInput) (net : NetOutcome)
    (s0 : UIState) : UIState × List UIEvent :=
  let src := trimWS input.source
  if src = "" then
    (applyShowError s0 "Please enter content to analyze",
     [UIEvent.showError "Please enter content to analyze"])
  else
    let body : FormInput :=
      { source := src,
        podcast_name := trimWS input.podcast_name,
        host_name := trimWS input.host_name,
        max_chapters := input.max_chapters,
        skip_elaborate := input.skip_elaborate,
        skip_polish := input.skip_polish }
    let s1 : UIState :=
      { s0 with errorVisible := false,
                resultsVisible := false,
                progressVisible := true,
                scriptBtnDisabled := true,
                audioBtnDisabled := true,
                scriptBtnText := "Generating...",
                spinnerVisible := true }
    match net with
    | NetOutcome.netError m =>
      let msg := if m = "" then "Failed to generate script. Please try again." else m
      (finallyRestore { applyShowError s1 msg with progressVisible := false },
       [UIEvent.fetchGenerate body, UIEvent.showError msg])
    | NetOutcome.response ok result =>
      if ok = false ∨ result.success = false then
        let msg := if result.error = "" then "Generation failed" else result.error
        (finallyRestore { applyShowError s1 msg with progressVisible := false },
         [UIEvent.fetchGenerate body, UIEvent.showError msg])
      else
        (finallyRestore (applyShowResults s1 result),
         [UIEvent.fetchGenerate body, UIEvent.showResults result])

/-- The body of the /api/health response as checkHealth reads it. -/
structure HealthData where
  pipeline_ready : Bool
  api_keys_configured : Bool
deriving DecidableEq, Repr

/-- checkHealth from app.js, on a successfully parsed health response:
shows the configuration error banner exactly when pipeline_ready or
api_keys_configured is false. -/
def checkHealth (d : HealthData) : List UIEvent :=
  if d.pipeline_ready = false ∨ d.api_keys_configured = false then
    [UIEvent.showError "API not properly configured. Please check your API keys."]
  else []

/-- copyScript from app.js: returns immediately when currentScriptData is
null, otherwise writes the stored script to the clipboard (the visual
button feedback does not touch the modelled state). -/
def copyScript (s : UIState) : UIState × List UIEvent :=
  match s.currentScriptData with
  | none => (s, [])
  | some r => (s, [UIEvent.clipboardWrite r.script])

/-- downloadScript from app.js: returns immediately when
currentScriptData is null, otherwise downloads the stored script under a
filename derived from the timestamp (the prefix before the first T). -/
def downloadScript (s : UIState) : UIState × List UIEvent :=
  match s.currentScriptData with
  | none => (s, [])
  | some r =>
    (s, [UIEvent.downloadFile
          ("podcast_script_" ++ ((r.metadata.timestamp.splitOn "T").headD "") ++ ".txt")
          r.script])

/-- True on the showError and showResults events: the two terminal
outcomes a run of handleGenerateScript can surface. -/
def isOutcomeEvent : UIEvent → Bool
  | UIEvent.showError _ => true
  | UIEvent.showResults _ => true
  | _ => false

/-- True on the outgoing fetch to /api/generate. -/
def isFetchEvent : UIEvent → Bool
  | UIEvent.fetchGenerate _ => true
  | _ => false

/-- True when the network outcome makes handleGenerateScript take its
catch path: the transport or parse threw, the HTTP status was not ok, or
the body carried success false. -/
def netFailed : NetOutcome → Bool
  | NetOutcome.netError _ => true
  | NetOutcome.response ok result => !ok || !result.success

/-- The DOM state on page load: no banner, no results, no progress,
both buttons enabled, script button in its resting label, no stored
script. -/
def initState : UIState :=
  { errorVisible := false,
    errorMessage := "",
    resultsVisible := false,
    progressVisible := false,
    scriptBtnDisabled := false,
    audioBtnDisabled := false,
    scriptBtnText := "Generate Script",
    spinnerVisible := false,
    currentScriptData := none }

/-- Modelled from the spec: the stage_name enum of a ScriptStage
(section 3); the pipeline source is not under the source tree. -/
inductive StageName where
  | draft
  | elaborated
  | polished
deriving DecidableEq, Repr

/-- Modelled from the spec: a ScriptStage (section 3) — each stage owns
its own text, later stages replace the previous text. -/
structure ScriptStage where
  text : String
  stage_name : StageName
deriving DecidableEq, Repr

/-- Modelled from the spec: one extracted chapter/concept with a short
title and summary (section 3, AnalysisResult). -/
structure Chapter where
  title : String
  summary : String
deriving DecidableEq, Repr

/-- Modelled from the spec: the AnalysisResult produced once per request
by the Analyzer (section 3). -/
structure AnalysisResult where
  chapters : List Chapter
  chunked_source : List String
deriving DecidableEq, Repr

/-- Modelled from the spec: the metadata aggregated by the orchestrator
(section 4.5) — word count of the final text and the chapter count from
the AnalysisResult.  Wall-clock duration and timestamp are external
inputs and are not modelled. -/
structure RunMetadata where
  word_count : Nat
  num_chapters : Nat
deriving DecidableEq, Repr

/-- Modelled from the spec: the GenerationResult returned by run
(section 3). -/
structure GenerationResult where
  script : String
  metadata : RunMetadata
deriving DecidableEq, Repr

/-- Modelled from the spec: the error taxonomy of section 7 —
InvalidRequest, AnalysisFailed and GenerationFailed (ConfigurationError
belongs to the readiness check, not to run). -/
inductive PipelineError where
  | invalidRequest (msg : String)
  | analysisFailed (msg : String)
  | generationFailed (msg : String)
deriving DecidableEq, Repr

/-- Modelled from the spec: the message carried by a pipeline error. -/
def PipelineError.message : PipelineError → String
  | PipelineError.invalidRequest m => m
  | PipelineError.analysisFailed m => m
  | PipelineError.generationFailed m => m

/-- Modelled from the spec: a GenerationRequest (section 3): source text,
podcast and host names, the chapter/concept limit, and the two skip
flags. -/
structure GenerationRequest where
  source : String
  podcast_name : String
  host_name : String
  max_items : Nat
  skip_elaborate : Bool
  skip_polish : Bool
deriving DecidableEq, Repr

/-- Modelled from the spec: the orchestrator configuration relevant to
validation — the configured maximum for the chapter/concept limit
(section 6, configuration inputs). -/
structure Config where
  maxItems : Nat
deriving DecidableEq, Repr

/-- Modelled from the spec: the four external-API collaborators of the
pipeline (sections 4.1 to 4.4), as abstract fallible functions.  The
draft, elaborate and polish calls return the raw generated text; the
orchestrator wraps it into a ScriptStage. -/
structure Collaborators where
  analyzeApi : String → Nat → Except String AnalysisResult
  draftApi : AnalysisResult → String → String → Except String String
  elaborateApi : String → Except String String
  polishApi : String → Except String String

/-- Whitespace-delimited token count, the word-count policy of section
4.5: the number of maximal non-whitespace runs of the text (what
splitting on whitespace and discarding empty tokens counts), written as
a structural fold so that it is kernel-computable.  The accumulator
carries the count so far and whether the previous character was inside a
word. -/
def countWords (s : String) : Nat :=
  (s.toList.foldl
    (fun (acc : Nat × Bool) c =>
      if c.isWhitespace then (acc.1, false)
      else if acc.2 then acc
      else (acc.1 + 1, true))
    (0, false)).1

/-- One recorded invocation of an external stage collaborator, with the
arguments it received; a run returns the list of invocations in order. -/
inductive StageCall where
  | analyzeCall (source : String) (maxItems : Nat)
  | draftCall (analysis : AnalysisResult) (podcast : String) (host : String)
  | elaborateCall (stage : ScriptStage)
  | polishCall (stage : ScriptStage)
deriving DecidableEq, Repr

/-- True on the recorded Analyzer invocations. -/
def isAnalyzeCall : StageCall → Bool
  | StageCall.analyzeCall _ _ => true
  | _ => false

/-- True on the recorded Drafter invocations. -/
def isDraftCall : StageCall → Bool
  | StageCall.draftCall _ _ _ => true
  | _ => false

/-- True on the recorded Elaborator invocations. -/
def isElaborateCall : StageCall → Bool
  | StageCall.elaborateCall _ => true
  | _ => false

/-- True on the recorded Polisher invocations. -/
def isPolishCall : StageCall → Bool
  | StageCall.polishCall _ => true
  | _ => false

/-- Modelled from the spec: the GenerationResult assembled at the end of
a successful run (section 4.5): the final stage text as the script, with
the word count recomputed from that text and the chapter count taken
from the AnalysisResult. -/
def mkResult (finalStage : ScriptStage) (analysis : AnalysisResult) :
    GenerationResult :=
  { script := finalStage.text,
    metadata := { word_count := countWords finalStage.text,
                  num_chapters := analysis.chapters.length } }

/-- Modelled from the spec: the Pipeline Orchestrator run (section 4.5),
which is not under the source tree.  Validation rejects an empty
(after trimming) source or an out-of-range limit before any external
call; then Analyze, Draft, optional Elaborate and optional Polish execute
strictly in that order, each stage consuming the previous stage output,
any failure aborting the pipeline (fail-fast, section 7).  An analysis
with zero chapters is a failure (section 8), and an empty generated text
is a GenerationFailed at the wrapper boundary (sections 4.2 and 9,
defensive validation).  The returned list records every external
invocation with its arguments, in order. -/
def run (cfg : Config) (co : Collaborators) (req : GenerationRequest) :
    List StageCall × Except PipelineError GenerationResult :=
  if trimWS req.source = "" then
    ([], Except.error (PipelineError.invalidRequest "source must be non-empty"))
  else if req.max_items = 0 ∨ cfg.maxItems < req.max_items then
    ([], Except.error (PipelineError.invalidRequest "max_items out of range"))
  else
    match co.analyzeApi req.source req.max_items with
    | Except.error e =>
      ([StageCall.analyzeCall req.source req.max_items],
       Except.error (PipelineError.analysisFailed e))
    | Except.ok analysis =>
      if analysis.chapters = [] then
        ([StageCall.analyzeCall req.source req.max_items],
         Except.error (PipelineError.analysisFailed "no chapters extracted"))
      else
        match co.draftApi analysis req.podcast_name req.host_name with
        | Except.error e =>
          ([StageCall.analyzeCall req.source req.max_items,
            StageCall.draftCall analysis req.podcast_name req.host_name],
           Except.error (PipelineError.generationFailed e))
        | Except.ok draftText =>
          if draftText = "" then
            ([StageCall.analyzeCall req.source req.max_items,
              StageCall.draftCall analysis req.podcast_name req.host_name],
             Except.error (PipelineError.generationFailed "empty draft response"))
          else
            if req.skip_elaborate then
              if req.skip_polish then
                ([StageCall.analyzeCall req.source req.max_items,
                  StageCall.draftCall analysis req.podcast_name req.host_name],
                 Except.ok (mkResult ⟨draftText, StageName.draft⟩ analysis))
              else
                match co.polishApi draftText with
                | Except.error e =>
                  ([StageCall.analyzeCall req.source req.max_items,
                    StageCall.draftCall analysis req.podcast_name req.host_name,
                    StageCall.polishCall ⟨draftText, StageName.draft⟩],
                   Except.error (PipelineError.generationFailed e))
                | Except.ok t =>
                  if t = "" then
                    ([StageCall.analyzeCall req.source req.max_items,
                      StageCall.draftCall analysis req.podcast_name req.host_name,
                      StageCall.polishCall ⟨draftText, StageName.draft⟩],
                     Except.error (PipelineError.generationFailed "empty polish response"))
                  else
                    ([StageCall.analyzeCall req.source req.max_items,
                      StageCall.draftCall analysis req.podcast_name req.host_name,
                      StageCall.polishCall ⟨draftText, StageName.draft⟩],
                     Except.ok (mkResult ⟨t, StageName.polished⟩ analysis))
            else
              match co.elaborateApi draftText with
              | Except.error e =>
                ([StageCall.analyzeCall req.source req.max_items,
                  StageCall.draftCall analysis req.podcast_name req.host_name,
                  StageCall.elaborateCall ⟨draftText, StageName.draft⟩],
                 Except.error (PipelineError.generationFailed e))
              | Except.ok te =>
                if te = "" then
                  ([StageCall.analyzeCall req.source req.max_items,
                    StageCall.draftCall analysis req.podcast_name req.host_name,
                    StageCall.elaborateCall ⟨draftText, StageName.draft⟩],
                   Except.error (PipelineError.generationFailed "empty elaborate response"))
                else
                  if req.skip_polish then
                    ([StageCall.analyzeCall req.source req.max_items,
                      StageCall.draftCall analysis req.podcast_name req.host_name,
                      StageCall.elaborateCall ⟨draftText, StageName.draft⟩],
                     Except.ok (mkResult ⟨te, StageName.elaborated⟩ analysis))
                  else
                    match co.polishApi te with
                    | Except.error e =>
                      ([StageCall.analyzeCall req.source req.max_items,
                        StageCall.draftCall analysis req.podcast_name req.host_name,
                        StageCall.elaborateCall ⟨draftText, StageName.draft⟩,
                        StageCall.polishCall ⟨te, StageName.elaborated⟩],
                       Except.error (PipelineError.generationFailed e))
                    | Except.ok tp =>
                      if tp = "" then
                        ([StageCall.analyzeCall req.source req.max_items,
                          StageCall.draftCall analysis req.podcast_name req.host_name,
                          StageCall.elaborateCall ⟨draftText, StageName.draft⟩,
                          StageCall.polishCall ⟨te, StageName.elaborated⟩],
                         Except.error (PipelineError.generationFailed "empty polish response"))
                      else
                        ([StageCall.analyzeCall req.source req.max_items,
                          StageCall.draftCall analysis req.podcast_name req.host_name,
                          StageCall.elaborateCall ⟨draftText, StageName.draft⟩,
                          StageCall.polishCall ⟨te, StageName.elaborated⟩],
                         Except.ok (mkResult ⟨tp, StageName.polished⟩ analysis))

/-- The GenerationRequest the front end form produces: handleGenerateScript
sends the trimmed form fields as the request body. -/
def requestOfForm (input : FormInput) : GenerationRequest :=
  { source := trimWS input.source,
    podcast_name := trimWS input.podcast_name,
    host_name := trimWS input.host_name,
    max_items := input.max_chapters,
    skip_elaborate := input.skip_elaborate,
    skip_polish := input.skip_polish }

/-- The network outcome the front end observes when the backend answers a
generate request with the outcome of run: HTTP 200 with the script and
metadata on success, a non-ok response with success false and the error
message on failure (duration and timestamp are external inputs, set to
defaults here since no claim depends on them). -/
def netOfRun (res : Except PipelineError GenerationResult) : NetOutcome :=
  match res with
  | Except.ok r =>
    NetOutcome.response true
      { success := true, error := "", script := r.script,
        metadata := { word_count := r.metadata.word_count,
                      duration_seconds := 0,
                      num_chapters := r.metadata.num_chapters,
                      timestamp := "" } }
  | Except.error e =>
    NetOutcome.response false
      { success := false, error := e.message, script := "",
        metadata := { word_count := 0, duration_seconds := 0,
                      num_chapters := 0, timestamp := "" } }

/-! ### Concrete fixtures used by witness theorems -/

/-- A form input whose source trims to the empty string. -/
def blankForm : FormInput :=
  { source := "   ", podcast_name := "Brew Talk", host_name := "Alex",
    max_chapters := 5, skip_elaborate := false, skip_polish := false }

/-- A form input with non-empty source. -/
def coffeeForm : FormInput :=
  { source := "The history of coffee", podcast_name := "Brew Talk",
    host_name := "Alex", max_chapters := 5,
    skip_elaborate := false, skip_polish := false }

/-- A failing backend response as the front end sees it. -/
def failedNet : NetOutcome :=
  NetOutcome.response false
    { success := false, error := "Analysis failed", script := "",
      metadata := { word_count := 0, duration_seconds := 0,
                    num_chapters := 0, timestamp := "" } }

/-! ### Theorems about the claims -/

/-- C2: a generation request whose source trims to the empty string is
rejected immediately with a validation error, and no fetch to
/api/generate is issued: the event trace of handleGenerateScript is
exactly the one showError and contains no fetch event. -/
theorem empty_source_rejected_before_fetch (input : FormInput)
    (net : NetOutcome) (s0 : UIState) (h : trimWS input.source = "") :
    (handleGenerateScript input net s0).2 =
      [UIEvent.showError "Please enter content to analyze"] ∧
    ((handleGenerateScript input net s0).2).countP isFetchEvent = 0 := by
  constructor
  · simp [handleGenerateScript, h]
  · simp [handleGenerateScript, h, List.countP, List.countP.go, isFetchEvent]

/-- Witness for C2 at the blank form input. -/
theorem empty_source_rejected_before_fetch_witness :
    (handleGenerateScript blankForm failedNet initState).2 =
      [UIEvent.showError "Please enter content to analyze"] ∧
    ((handleGenerateScript blankForm failedNet initState).2).countP isFetchEvent = 0 :=
  empty_source_rejected_before_fetch blankForm failedNet initState (by decide)

/-- C8: checkHealth reports the configuration error exactly when
pipeline_ready is false or api_keys_configured is false. -/
theorem health_config_error_iff (d : HealthData) :
    (∃ m, UIEvent.showError m ∈ checkHealth d) ↔
      (d.pipeline_ready = false ∨ d.api_keys_configured = false) := by
  cases d with
  | mk pr ak => cases pr <;> cases ak <;> simp [checkHealth]

/-- C9: while no script has been generated (currentScriptData is none),
copyScript and downloadScript return immediately: the state is unchanged
and no clipboard write, download or any other event occurs. -/
theorem no_script_data_noop (s : UIState)
    (h : s.currentScriptData = none) :
    copyScript s = (s, []) ∧ downloadScript s = (s, []) := by
  constructor
  · simp [copyScript, h]
  · simp [downloadScript, h]

/-- Witness for C9 at the initial page state. -/
theorem no_script_data_noop_witness :
    copyScript initState = (initState, []) ∧
    downloadScript initState = (initState, []) :=
  no_script_data_noop initState rfl

/-- C10: for every run of handleGenerateScript started from a state where
the buttons are enabled, the label is at rest and the spinner hidden (the
only states in which the generate button is clickable), the final state
has both buttons re-enabled, the script button label restored to
Generate Script, and the spinner hidden — on the success path, the error
path and the early validation return alike. -/
theorem buttons_restored_after_run (input : FormInput) (net : NetOutcome)
    (s0 : UIState)
    (h1 : s0.scriptBtnDisabled = false) (h2 : s0.audioBtnDisabled = false)
    (h3 : s0.scriptBtnText = "Generate Script")
    (h4 : s0.spinnerVisible = false) :
    (handleGenerateScript input net s0).1.scriptBtnDisabled = false ∧
    (handleGenerateScript input net s0).1.audioBtnDisabled = false ∧
    (handleGenerateScript input net s0).1.scriptBtnText = "Generate Script" ∧
    (handleGenerateScript input net s0).1.spinnerVisible = false := by
  by_cases hs : trimWS input.source = ""
  · simp [handleGenerateScript, hs, applyShowError, h1, h2, h3, h4]
  · cases net with
    | netError m =>
      simp [handleGenerateScript, hs, applyShowError, finallyRestore]
    | response ok result =>
      by_cases hok : ok = false ∨ result.success = false
      · simp [handleGenerateScript, hs, hok, applyShowError, finallyRestore]
      · simp [handleGenerateScript, hs, hok, applyShowResults, finallyRestore]

/-- Witness for C10: a failing run from the initial state ends with the
buttons restored. -/
theorem buttons_restored_after_run_witness :
    (handleGenerateScript coffeeForm failedNet initState).1.scriptBtnDisabled = false ∧
    (handleGenerateScript coffeeForm failedNet initState).1.audioBtnDisabled = false ∧
    (handleGenerateScript coffeeForm failedNet initState).1.scriptBtnText = "Generate Script" ∧
    (handleGenerateScript coffeeForm failedNet initState).1.spinnerVisible = false :=
  buttons_restored_after_run coffeeForm failedNet initState rfl rfl rfl rfl

/-- C7: on the error path of handleGenerateScript (non-empty source, the
fetch threw or the response was non-ok or carried success false) the
results section ends hidden, the error banner is shown with a non-empty
message, the stored script data is left unchanged, and no results event
is emitted. -/
theorem failure_single_indicator (input : FormInput) (net : NetOutcome)
    (s0 : UIState) (hsrc : trimWS input.source ≠ "")
    (hfail : netFailed net = true) :
    (handleGenerateScript input net s0).1.resultsVisible = false ∧
    (handleGenerateScript input net s0).1.errorVisible = true ∧
    (handleGenerateScript input net s0).1.currentScriptData = s0.currentScriptData ∧
    (∃ m, m ≠ "" ∧ UIEvent.showError m ∈ (handleGenerateScript input net s0).2) ∧
    (∀ r, UIEvent.showResults r ∉ (handleGenerateScript input net s0).2) := by
  cases net with
  | netError m =>
    by_cases hm : m = "" <;>
      simp [handleGenerateScript, hsrc, hm, applyShowError, finallyRestore]
  | response ok result =>
    have hko : ok = false ∨ result.success = false := by
      cases ok <;> cases hr : result.success <;> simp_all [netFailed]
    by_cases he : result.error = "" <;>
      simp [handleGenerateScript, hsrc, hko, he, applyShowError, finallyRestore]

/-- Witness for C7 at a concrete failing response. -/
theorem failure_single_indicator_witness :
    (handleGenerateScript coffeeForm failedNet initState).1.resultsVisible = false ∧
    (handleGenerateScript coffeeForm failedNet initState).1.errorVisible = true ∧
    (handleGenerateScript coffeeForm failedNet initState).1.currentScriptData =
      initState.currentScriptData ∧
    (∃ m, m ≠ "" ∧
      UIEvent.showError m ∈ (handleGenerateScript coffeeForm failedNet initState).2) ∧
    (∀ r, UIEvent.showResults r ∉ (handleGenerateScript coffeeForm failedNet initState).2) :=
  failure_single_indicator coffeeForm failedNet initState (by decide) rfl

/-- Helper: full case analysis of a successful run.  A success passes
validation, the Analyzer returned a non-empty chapter list, the Drafter
returned non-empty text, and depending on the two skip flags the call
trace and result take exactly one of four shapes, each later stage
consuming the text produced by the previous one. -/
theorem run_ok_cases (cfg : Config) (co : Collaborators)
    (req : GenerationRequest) (calls : List StageCall)
    (r : GenerationResult)
    (h : run cfg co req = (calls, Except.ok r)) :
    ∃ a d, trimWS req.source ≠ "" ∧
      ¬(req.max_items = 0 ∨ cfg.maxItems < req.max_items) ∧
      co.analyzeApi req.source req.max_items = Except.ok a ∧
      a.chapters ≠ [] ∧
      co.draftApi a req.podcast_name req.host_name = Except.ok d ∧ d ≠ "" ∧
      ((req.skip_elaborate = true ∧ req.skip_polish = true ∧
          calls = [StageCall.analyzeCall req.source req.max_items,
                   StageCall.draftCall a req.podcast_name req.host_name] ∧
          r = mkResult ⟨d, StageName.draft⟩ a) ∨
       (req.skip_elaborate = true ∧ req.skip_polish = false ∧
          ∃ p, co.polishApi d = Except.ok p ∧ p ≠ "" ∧
            calls = [StageCall.analyzeCall req.source req.max_items,
                     StageCall.draftCall a req.podcast_name req.host_name,
                     StageCall.polishCall ⟨d, StageName.draft⟩] ∧
            r = mkResult ⟨p, StageName.polished⟩ a) ∨
       (req.skip_elaborate = false ∧ req.skip_polish = true ∧
          ∃ e, co.elaborateApi d = Except.ok e ∧ e ≠ "" ∧
            calls = [StageCall.analyzeCall req.source req.max_items,
                     StageCall.draftCall a req.podcast_name req.host_name,
                     StageCall.elaborateCall ⟨d, StageName.draft⟩] ∧
            r = mkResult ⟨e, StageName.elaborated⟩ a) ∨
       (req.skip_elaborate = false ∧ req.skip_polish = false ∧
          ∃ e p, co.elaborateApi d = Except.ok e ∧ e ≠ "" ∧
            co.polishApi e = Except.ok p ∧ p ≠ "" ∧
            calls = [StageCall.analyzeCall req.source req.max_items,
                     StageCall.draftCall a req.podcast_name req.host_name,
                     StageCall.elaborateCall ⟨d, StageName.draft⟩,
                     StageCall.polishCall ⟨e, StageName.elaborated⟩] ∧
            r = mkResult ⟨p, StageName.polished⟩ a)) := by
  unfold run at h
  split at h
  · simp at h
  · split at h
    · simp at h
    · rename_i hs hlim
      split at h
      · simp at h
      · rename_i a ha
        split at h
        · simp at h
        · rename_i hch
          split at h
          · simp at h
          · rename_i d hd
            split at h
            · simp at h
            · rename_i hdne
              refine ⟨a, d, hs, hlim, ha, hch, hd, hdne, ?_⟩
              split at h
              · rename_i hske
                split at h
                · rename_i hskp
                  simp only [Prod.mk.injEq, Except.ok.injEq] at h
                  exact Or.inl ⟨hske, hskp, h.1.symm, h.2.symm⟩
                · rename_i hskp
                  split at h
                  · simp at h
                  · rename_i p hp
                    split at h
                    · simp at h
                    · rename_i hpne
                      simp only [Prod.mk.injEq, Except.ok.injEq] at h
                      exact Or.inr (Or.inl ⟨hske, Bool.not_eq_true _ ▸
                        (by simpa using hskp), p, hp, hpne, h.1.symm, h.2.symm⟩)
              · rename_i hske
                split at h
                · simp at h
                · rename_i e he
                  split at h
                  · simp at h
                  · rename_i hene
                    split at h
                    · rename_i hskp
                      simp only [Prod.mk.injEq, Except.ok.injEq] at h
                      exact Or.inr (Or.inr (Or.inl ⟨by simpa using hske,
                        hskp, e, he, hene, h.1.symm, h.2.symm⟩))
                    · rename_i hskp
                      split at h
                      · simp at h
                      · rename_i p hp
                        split at h
                        · simp at h
                        · rename_i hpne
                          simp only [Prod.mk.injEq, Except.ok.injEq] at h
                          exact Or.inr (Or.inr (Or.inr ⟨by simpa using hske,
                            by simpa using hskp, e, p, he, hene, hp, hpne,
                            h.1.symm, h.2.symm⟩))

/-- Helper: the script of a successful run is non-empty — the draft is
rejected when empty, skipping preserves the previous non-empty text, and
the elaborate and polish wrappers reject empty responses. -/
theorem run_ok_script_ne (cfg : Config) (co : Collaborators)
    (req : GenerationRequest) (calls : List StageCall)
    (r : GenerationResult)
    (h : run cfg co req = (calls, Except.ok r)) : r.script ≠ "" := by
  obtain ⟨a, d, _, _, _, _, _, hdne, hcases⟩ := run_ok_cases cfg co req calls r h
  rcases hcases with ⟨_, _, _, hr⟩ | ⟨_, _, p, _, hpne, _, hr⟩ |
    ⟨_, _, e, _, hene, _, hr⟩ | ⟨_, _, e, p, _, _, _, hpne, _, hr⟩ <;>
    subst hr <;> simpa [mkResult] using by assumption

/-- C3: a request whose limit is 0 or greater than the configured
maximum is rejected with InvalidRequest and the recorded list of
external invocations is empty — no external API is invoked. -/
theorem invalid_limit_rejected (cfg : Config) (co : Collaborators)
    (req : GenerationRequest)
    (h : req.max_items = 0 ∨ cfg.maxItems < req.max_items) :
    ∃ m, run cfg co req = ([], Except.error (PipelineError.invalidRequest m)) := by
  unfold run
  by_cases hs : trimWS req.source = ""
  · exact ⟨"source must be non-empty", by simp [hs]⟩
  · exact ⟨"max_items out of range", by simp [hs, h]⟩

/-- Stub collaborators used by the witness theorems: each stage returns
a fixed successful response. -/
def stubCo : Collaborators :=
  { analyzeApi := fun s _ =>
      Except.ok { chapters := [{ title := "Origins", summary := "Where coffee began" }],
                  chunked_source := [s] },
    draftApi := fun _ p h => Except.ok ("Welcome to " ++ p ++ " with " ++ h),
    elaborateApi := fun t => Except.ok (t ++ " and more detail"),
    polishApi := fun t => Except.ok (t ++ " polished") }

/-- A configuration with the example maximum of 20. -/
def cfg20 : Config := { maxItems := 20 }

/-- A request with a limit of 25 against a configured maximum of 20. -/
def overLimitReq : GenerationRequest :=
  { source := "The history of coffee", podcast_name := "Brew Talk",
    host_name := "Alex", max_items := 25,
    skip_elaborate := false, skip_polish := false }

/-- Witness for C3: the over-limit request (25 against a maximum of 20)
is rejected without any recorded external call. -/
theorem invalid_limit_rejected_witness :
    ∃ m, run cfg20 stubCo overLimitReq =
      ([], Except.error (PipelineError.invalidRequest m)) :=
  invalid_limit_rejected cfg20 stubCo overLimitReq (Or.inr (by decide))

/-- C4: in every successful run the Analyzer and Drafter are invoked
exactly once, the Elaborator and Polisher at most once each; and with
both skip flags false the recorded trace is exactly Analyze, Draft,
Elaborate, Polish in that order, each invocation receiving the previous
stage's output as its argument. -/
theorem stage_order_discipline (cfg : Config) (co : Collaborators)
    (req : GenerationRequest) (calls : List StageCall)
    (r : GenerationResult)
    (h : run cfg co req = (calls, Except.ok r)) :
    (calls.countP isAnalyzeCall = 1 ∧ calls.countP isDraftCall = 1 ∧
     calls.countP isElaborateCall ≤ 1 ∧ calls.countP isPolishCall ≤ 1) ∧
    (req.skip_elaborate = false → req.skip_polish = false →
      ∃ a d e, co.analyzeApi req.source req.max_items = Except.ok a ∧
        co.draftApi a req.podcast_name req.host_name = Except.ok d ∧
        co.elaborateApi d = Except.ok e ∧
        calls = [StageCall.analyzeCall req.source req.max_items,
                 StageCall.draftCall a req.podcast_name req.host_name,
                 StageCall.elaborateCall ⟨d, StageName.draft⟩,
                 StageCall.polishCall ⟨e, StageName.elaborated⟩]) := by
  obtain ⟨a, d, _, _, ha, _, hd, _, hcases⟩ := run_ok_cases cfg co req calls r h
  rcases hcases with ⟨hske, hskp, hc, _⟩ | ⟨hske, hskp, p, hp, _, hc, _⟩ |
    ⟨hske, hskp, e, he, _, hc, _⟩ | ⟨hske, hskp, e, p, he, _, hp, _, hc, _⟩ <;>
    subst hc <;>
    refine ⟨by simp [List.countP_cons, isAnalyzeCall, isDraftCall,
      isElaborateCall, isPolishCall], ?_⟩ <;>
    intro hske2 hskp2 <;> simp_all

/-- Witness for C4 at concrete stub collaborators with both skip flags
false: the recorded trace is the four stages in order. -/
theorem stage_order_discipline_witness :
    (((run cfg20 stubCo
        { source := "The history of coffee", podcast_name := "Brew Talk",
          host_name := "Alex", max_items := 5,
          skip_elaborate := false, skip_polish := false }).1).countP isAnalyzeCall = 1 ∧
     ((run cfg20 stubCo
        { source := "The history of coffee", podcast_name := "Brew Talk",
          host_name := "Alex", max_items := 5,
          skip_elaborate := false, skip_polish := false }).1).countP isDraftCall = 1 ∧
     ((run cfg20 stubCo
        { source := "The history of coffee", podcast_name := "Brew Talk",
          host_name := "Alex", max_items := 5,
          skip_elaborate := false, skip_polish := false }).1).countP isElaborateCall ≤ 1 ∧
     ((run cfg20 stubCo
        { source := "The history of coffee", podcast_name := "Brew Talk",
          host_name := "Alex", max_items := 5,
          skip_elaborate := false, skip_polish := false }).1).countP isPolishCall ≤ 1) ∧
    (false = false → false = false →
      ∃ a d e, stubCo.analyzeApi "The history of coffee" 5 = Except.ok a ∧
        stubCo.draftApi a "Brew Talk" "Alex" = Except.ok d ∧
        stubCo.elaborateApi d = Except.ok e ∧
        (run cfg20 stubCo
          { source := "The history of coffee", podcast_name := "Brew Talk",
            host_name := "Alex", max_items := 5,
            skip_elaborate := false, skip_polish := false }).1 =
          [StageCall.analyzeCall "The history of coffee" 5,
           StageCall.draftCall a "Brew Talk" "Alex",
           StageCall.elaborateCall ⟨d, StageName.draft⟩,
           StageCall.polishCall ⟨e, StageName.elaborated⟩]) :=
  stage_order_discipline cfg20 stubCo
    { source := "The history of coffee", podcast_name := "Brew Talk",
      host_name := "Alex", max_items := 5,
      skip_elaborate := false, skip_polish := false }
    (run cfg20 stubCo
      { source := "The history of coffee", podcast_name := "Brew Talk",
        host_name := "Alex", max_items := 5,
        skip_elaborate := false, skip_polish := false }).1
    (mkResult
      ⟨"Welcome to Brew Talk with Alex and more detail polished",
       StageName.polished⟩
      { chapters := [{ title := "Origins", summary := "Where coffee began" }],
        chunked_source := ["The history of coffee"] })
    rfl

/-- C5: with both skip flags true, a successful run returns the Drafter
output verbatim as the script, and the recorded trace contains zero
Elaborator and zero Polisher invocations. -/
theorem skip_both_returns_draft (cfg : Config) (co : Collaborators)
    (req : GenerationRequest) (calls : List StageCall)
    (r : GenerationResult)
    (h : run cfg co req = (calls, Except.ok r))
    (hE : req.skip_elaborate = true) (hP : req.skip_polish = true) :
    (∃ a, co.analyzeApi req.source req.max_items = Except.ok a ∧
       co.draftApi a req.podcast_name req.host_name = Except.ok r.script) ∧
    calls.countP isElaborateCall = 0 ∧ calls.countP isPolishCall = 0 := by
  obtain ⟨a, d, _, _, ha, _, hd, _, hcases⟩ := run_ok_cases cfg co req calls r h
  rcases hcases with ⟨_, _, hc, hr⟩ | ⟨_, hskp, _, _, _, _, _⟩ |
    ⟨hske, _, _, _, _, _, _⟩ | ⟨hske, _, _, _, _, _, _, _, _, _⟩
  · subst hc; subst hr
    exact ⟨⟨a, ha, by simpa [mkResult] using hd⟩,
      by simp [List.countP_cons, isElaborateCall, isPolishCall]⟩
  · simp_all
  · simp_all
  · simp_all

/-- A request with both skip flags true. -/
def skipBothReq : GenerationRequest :=
  { source := "The history of coffee", podcast_name := "Brew Talk",
    host_name := "Alex", max_items := 5,
    skip_elaborate := true, skip_polish := true }

/-- Witness for C5 at the stub collaborators: the returned script is the
draft text and no elaborate or polish call is recorded. -/
theorem skip_both_returns_draft_witness :
    (∃ a, stubCo.analyzeApi skipBothReq.source skipBothReq.max_items = Except.ok a ∧
       stubCo.draftApi a skipBothReq.podcast_name skipBothReq.host_name =
         Except.ok (mkResult
           ⟨"Welcome to Brew Talk with Alex", StageName.draft⟩
           { chapters := [{ title := "Origins", summary := "Where coffee began" }],
             chunked_source := ["The history of coffee"] }).script) ∧
    ((run cfg20 stubCo skipBothReq).1).countP isElaborateCall = 0 ∧
    ((run cfg20 stubCo skipBothReq).1).countP isPolishCall = 0 :=
  skip_both_returns_draft cfg20 stubCo skipBothReq
    (run cfg20 stubCo skipBothReq).1
    (mkResult ⟨"Welcome to Brew Talk with Alex", StageName.draft⟩
      { chapters := [{ title := "Origins", summary := "Where coffee began" }],
        chunked_source := ["The history of coffee"] })
    rfl rfl rfl

/-- C6: in every successful generation result the word_count metadata
field equals the whitespace-delimited token count of the returned
script. -/
theorem word_count_matches_script (cfg : Config) (co : Collaborators)
    (req : GenerationRequest) (calls : List StageCall)
    (r : GenerationResult)
    (h : run cfg co req = (calls, Except.ok r)) :
    r.metadata.word_count = countWords r.script := by
  obtain ⟨a, d, _, _, _, _, _, _, hcases⟩ := run_ok_cases cfg co req calls r h
  rcases hcases with ⟨_, _, _, hr⟩ | ⟨_, _, p, _, _, _, hr⟩ |
    ⟨_, _, e, _, _, _, hr⟩ | ⟨_, _, e, p, _, _, _, _, _, hr⟩ <;>
    subst hr <;> simp [mkResult]

/-- Witness for C6 at the stub collaborators. -/
theorem word_count_matches_script_witness :
    (mkResult ⟨"Welcome to Brew Talk with Alex", StageName.draft⟩
      { chapters := [{ title := "Origins", summary := "Where coffee began" }],
        chunked_source := ["The history of coffee"] }).metadata.word_count =
    countWords (mkResult ⟨"Welcome to Brew Talk with Alex", StageName.draft⟩
      { chapters := [{ title := "Origins", summary := "Where coffee began" }],
        chunked_source := ["The history of coffee"] }).script :=
  word_count_matches_script cfg20 stubCo skipBothReq
    (run cfg20 stubCo skipBothReq).1
    (mkResult ⟨"Welcome to Brew Talk with Alex", StageName.draft⟩
      { chapters := [{ title := "Origins", summary := "Where coffee began" }],
        chunked_source := ["The history of coffee"] })
    rfl

/-- The event trace of one complete generation interaction: the front
end form handler driving the backend run and rendering its outcome. -/
def generateTrace (cfg : Config) (co : Collaborators) (input : FormInput)
    (s0 : UIState) : List UIEvent :=
  (handleGenerateScript input (netOfRun (run cfg co (requestOfForm input)).2) s0).2

/-- C1: every completed generation interaction surfaces exactly one
outcome — either showResults with a result whose script is non-empty, or
showError with a non-empty human-readable message — never both and never
neither. -/
theorem generate_single_outcome (cfg : Config) (co : Collaborators)
    (input : FormInput) (s0 : UIState) :
    (generateTrace cfg co input s0).countP isOutcomeEvent = 1 ∧
    (∀ r, UIEvent.showResults r ∈ generateTrace cfg co input s0 →
      r.script ≠ "") ∧
    (∀ m, UIEvent.showError m ∈ generateTrace cfg co input s0 → m ≠ "") := by
  by_cases hs : trimWS input.source = ""
  · refine ⟨?_, ?_, ?_⟩ <;>
      simp [generateTrace, handleGenerateScript, hs, List.countP_cons,
        isOutcomeEvent]
  · cases hr : (run cfg co (requestOfForm input)).2 with
    | ok r =>
      have hne : r.script ≠ "" :=
        run_ok_script_ne cfg co (requestOfForm input)
          (run cfg co (requestOfForm input)).1 r
          (by rw [← hr])
      refine ⟨?_, ?_, ?_⟩
      · simp [generateTrace, handleGenerateScript, hs, hr, netOfRun,
          List.countP_cons, isOutcomeEvent]
      · intro x hx
        simp [generateTrace, handleGenerateScript, hs, hr, netOfRun] at hx
        subst hx
        simpa using hne
      · simp [generateTrace, handleGenerateScript, hs, hr, netOfRun]
    | error e =>
      by_cases hm : e.message = "" <;>
        refine ⟨?_, ?_, ?_⟩ <;>
        simp [generateTrace, handleGenerateScript, hs, hr, netOfRun, hm,
          List.countP_cons, isOutcomeEvent]

end Podcast
